import Mathlib

/-!
Verification of the safe libpcap wrapper (`luomu-libpcap`,
`src/luomu-libpcap/src/lib.rs`) via a shallow embedding in Lean 4.

Modelling conventions:
* Bytes (`u8`) are `Nat`; byte buffers (`&[u8]`, `Vec<u8>`) are `List Nat`.
* The native singly-linked lists (`pcap_if_t`, `pcap_addr_t`) that the
  enumeration iterators walk are embedded as Lean lists of per-node
  conversion outcomes: the null-terminated chain becomes a finite list, and
  each node carries the result the conversion helper (`try_interface_from`,
  `try_address_from`) produces for it.
* Successive results of the collaborator's poll call (`pcap_next_ex`) are
  embedded as a list of `Except Error Packet` values which the iterator
  consumes front-to-back.
* `Rc<&[u8]>` is value-transparent: only the byte contents are observable.
-/

namespace LuomuLibpcap

/-- Modelled from the spec: the crate's error type lives in `mod error`
(`error.rs`, not available under src/). Spec section 4.6 fixes its kinds:
invalid address (tagged-union extraction mismatch), timeout (transient
empty-poll condition), and a collaborator-reported failure wrapping the
failing operation's name plus the external library's diagnostic text. -/
inductive Error where
  | InvalidAddress
  | Timeout
  | PcapError (op : String) (msg : String)
  deriving DecidableEq

/-- A network packet captured by libpcap (`enum Packet`, lib.rs lines
312-322). `Borrowed` holds the bytes of the `Rc`-wrapped borrowed slice,
`Owned` the bytes of the explicitly copied `Vec<u8>`. -/
inductive Packet where
  | Borrowed (bytes : List Nat)
  | Owned (bytes : List Nat)
  deriving DecidableEq

/-- Embeds `Packet::from_slice` (lib.rs lines 325-328): wraps the slice as
the `Borrowed` variant. -/
def Packet.from_slice (buf : List Nat) : Packet :=
  Packet.Borrowed buf

/-- Embeds `Packet::to_vec` (lib.rs lines 330-337): copies the borrowed
slice to a vector, or clones the owned vector. -/
def Packet.to_vec : Packet → List Nat
  | Packet.Borrowed p => p
  | Packet.Owned p => p

/-- Embeds `ToOwned for Packet` (lib.rs lines 339-345): an `Owned` packet
holding `self.to_vec()`. -/
def Packet.to_owned (p : Packet) : Packet :=
  Packet.Owned p.to_vec

/-- Embeds `Deref for Packet` (lib.rs lines 353-362): the byte contents of
either variant. -/
def Packet.deref : Packet → List Nat
  | Packet.Borrowed p => p
  | Packet.Owned p => p

/-- Embeds `AsRef<[u8]> for Packet` (lib.rs lines 347-351): delegates to
`deref`. -/
def Packet.as_ref (p : Packet) : List Nat :=
  p.deref

/-- Discriminator for the `Owned` variant. -/
def Packet.isOwned : Packet → Bool
  | Packet.Borrowed _ => false
  | Packet.Owned _ => true

/-- Discriminator for the `Borrowed` variant. -/
def Packet.isBorrowed : Packet → Bool
  | Packet.Borrowed _ => true
  | Packet.Owned _ => false

/-- Embeds `PcapIter::next` (lib.rs lines 256-274) as a function of the
stream of successive `pcap_next_ex` results: loop polling; on `Ok` yield
the packet; on `Err(Error::Timeout)` retry without yielding; on any other
error return `None`. The returned pair is the yielded item together with
the part of the poll stream not yet consumed. An exhausted model stream
also gives `none` (the native poll blocks instead; the claims below never
depend on this case). -/
def PcapIter.next : List (Except Error Packet) → Option Packet × List (Except Error Packet)
  | [] => (none, [])
  | Except.ok p :: rest => (some p, rest)
  | Except.error Error.Timeout :: rest => PcapIter.next rest
  | Except.error (Error.InvalidAddress) :: rest => (none, rest)
  | Except.error (Error.PcapError _ _) :: rest => (none, rest)

/-- C1: if the collaborator's poll reports `Timeout` n times consecutively
and then succeeds with packet p, a single call to `PcapIter::next` yields
exactly that one packet, consuming the stream through the successful poll;
no timeout is observable in the result. -/
theorem pcap_iter_timeout_transparency (n : Nat) (p : Packet)
    (rest : List (Except Error Packet)) :
    PcapIter.next (List.replicate n (Except.error Error.Timeout) ++ Except.ok p :: rest)
      = (some p, rest) := by
  induction n with
  | zero => simp [PcapIter.next]
  | succ n ih => simpa [List.replicate_succ, PcapIter.next] using ih

/-- C2: any poll failure other than `Timeout` terminates the packet
sequence: `PcapIter::next` returns `none` (the `Option Packet` item type
carries no error value, so the consumer cannot distinguish a clean end
from an error end). -/
theorem pcap_iter_error_terminates (e : Error) (rest : List (Except Error Packet))
    (h : e ≠ Error.Timeout) :
    PcapIter.next (Except.error e :: rest) = (none, rest) := by
  cases e with
  | InvalidAddress => rfl
  | Timeout => exact absurd rfl h
  | PcapError op msg => rfl

/-- Witness for C2 at a concrete non-timeout poll failure. -/
theorem pcap_iter_error_terminates_witness :
    PcapIter.next [Except.error (Error.PcapError "pcap_next_ex" "boom")] = (none, []) :=
  pcap_iter_error_terminates (Error.PcapError "pcap_next_ex" "boom") [] (by decide)

/-- C6: for every `Packet` p, `to_owned(p)` is the `Owned` variant and its
byte contents (`to_vec`) equal those of p. -/
theorem packet_owned_roundtrip (p : Packet) :
    (p.to_owned).isOwned = true ∧ (p.to_owned).to_vec = p.to_vec := by
  cases p <;> exact ⟨rfl, rfl⟩

/-- C10: `Packet::from_slice(buf)` is the `Borrowed` variant and its
observable bytes equal buf exactly, through both `as_ref` and `to_vec`. -/
theorem packet_from_slice_spec (buf : List Nat) :
    (Packet.from_slice buf).isBorrowed = true ∧
    (Packet.from_slice buf).as_ref = buf ∧
    (Packet.from_slice buf).to_vec = buf :=
  ⟨rfl, rfl, rfl⟩

/-- Embeds `std::net::Ipv4Addr` as its four octets. -/
structure Ipv4Addr where
  (a b c d : Nat)
  deriving DecidableEq

/-- Embeds `std::net::Ipv6Addr` as its eight 16-bit segments. -/
structure Ipv6Addr where
  (s0 s1 s2 s3 s4 s5 s6 s7 : Nat)
  deriving DecidableEq

/-- Embeds `MacAddr` (lib.rs lines 786-788): a 6-byte hardware address. -/
structure MacAddr where
  (b0 b1 b2 b3 b4 b5 : Nat)
  deriving DecidableEq

/-- Embeds `enum Address` (lib.rs lines 526-535): tagged union of IPv4,
IPv6 and MAC addresses. -/
inductive Address where
  | Ipv4 (ip : Ipv4Addr)
  | Ipv6 (ip : Ipv6Addr)
  | Mac (mac : MacAddr)
  deriving DecidableEq

/-- Embeds `Address::is_ipv4` (lib.rs lines 538-544). -/
def Address.is_ipv4 : Address → Bool
  | Address.Ipv4 _ => true
  | _ => false

/-- Embeds `Address::is_ipv6` (lib.rs lines 546-552). -/
def Address.is_ipv6 : Address → Bool
  | Address.Ipv6 _ => true
  | _ => false

/-- Embeds `Address::is_ip` (lib.rs lines 554-557). -/
def Address.is_ip (a : Address) : Bool :=
  a.is_ipv4 || a.is_ipv6

/-- Embeds `Address::is_mac` (lib.rs lines 559-565). -/
def Address.is_mac : Address → Bool
  | Address.Mac _ => true
  | _ => false

/-- Embeds `Address::as_ipv4` (lib.rs lines 567-573). -/
def Address.as_ipv4 : Address → Option Ipv4Addr
  | Address.Ipv4 ip => some ip
  | _ => none

/-- Embeds `Address::as_ipv6` (lib.rs lines 575-581). -/
def Address.as_ipv6 : Address → Option Ipv6Addr
  | Address.Ipv6 ip => some ip
  | _ => none

/-- Embeds `Address::as_mac` (lib.rs lines 592-598). -/
def Address.as_mac : Address → Option MacAddr
  | Address.Mac mac => some mac
  | _ => none

/-- Embeds `TryFrom<Address> for Ipv4Addr` (lib.rs lines 640-649):
`Ok` with the contained address for the `Ipv4` variant, otherwise
`Err(Error::InvalidAddress)`. -/
def Ipv4Addr.try_from : Address → Except Error Ipv4Addr
  | Address.Ipv4 ip => Except.ok ip
  | _ => Except.error Error.InvalidAddress

/-- Embeds `TryFrom<Address> for Ipv6Addr` (lib.rs lines 651-660). -/
def Ipv6Addr.try_from : Address → Except Error Ipv6Addr
  | Address.Ipv6 ip => Except.ok ip
  | _ => Except.error Error.InvalidAddress

/-- Embeds `TryFrom<Address> for MacAddr` (lib.rs lines 708-717). -/
def MacAddr.try_from : Address → Except Error MacAddr
  | Address.Mac mac => Except.ok mac
  | _ => Except.error Error.InvalidAddress

/-- C5: for every `Address` a, `as_ipv4 a` is `some` iff a is the `Ipv4`
variant (symmetrically for `Ipv6` and `Mac`); each `TryFrom` extraction
returns the contained value on the matching variant and
`Err(InvalidAddress)` exactly on the non-matching variants. -/
theorem address_tagging (a : Address) :
    ((a.as_ipv4.isSome = true) ↔ ∃ ip, a = Address.Ipv4 ip) ∧
    ((a.as_ipv6.isSome = true) ↔ ∃ ip, a = Address.Ipv6 ip) ∧
    ((a.as_mac.isSome = true) ↔ ∃ m, a = Address.Mac m) ∧
    (∀ ip, Ipv4Addr.try_from (Address.Ipv4 ip) = Except.ok ip) ∧
    (∀ ip, Ipv6Addr.try_from (Address.Ipv6 ip) = Except.ok ip) ∧
    (∀ m, MacAddr.try_from (Address.Mac m) = Except.ok m) ∧
    ((Ipv4Addr.try_from a = Except.error Error.InvalidAddress) ↔ a.is_ipv4 = false) ∧
    ((Ipv6Addr.try_from a = Except.error Error.InvalidAddress) ↔ a.is_ipv6 = false) ∧
    ((MacAddr.try_from a = Except.error Error.InvalidAddress) ↔ a.is_mac = false) := by
  cases a <;>
    simp [Address.as_ipv4, Address.as_ipv6, Address.as_mac, Address.is_ipv4,
      Address.is_ipv6, Address.is_mac, Ipv4Addr.try_from, Ipv6Addr.try_from,
      MacAddr.try_from]

/-- Embeds `struct InterfaceAddress` (lib.rs lines 719-732): a primary
address with optional netmask, broadcast and destination addresses. -/
structure InterfaceAddress where
  addr : Address
  netmask : Option Address
  broadaddr : Option Address
  dstaddr : Option Address
  deriving DecidableEq

/-- Embeds `enum InterfaceFlag` (lib.rs lines 775-784). -/
inductive InterfaceFlag where
  | Loopback
  | Up
  | Running
  deriving DecidableEq

/-- Embeds `struct Interface` (lib.rs lines 424-436). The `BTreeSet`
fields are embedded as lists (their ordered, deduplicated contents). -/
structure Interface where
  name : String
  description : Option String
  addresses : List InterfaceAddress
  flags : List InterfaceFlag
  deriving DecidableEq

/-- Embeds `Interface::has_name` (lib.rs lines 454-457). -/
def Interface.has_name (i : Interface) (name : String) : Bool :=
  i.name == name

/-- Embeds one step of `InterfaceIter::next` (lib.rs lines 493-524) over
the remaining chain of native nodes, each node carrying the outcome
`try_interface_from` produces for it: advance past the node, then yield
`Some` on a successful conversion and return `None` on a conversion
error. The returned pair is the yielded item and the remaining chain. -/
def InterfaceIter.next : List (Except Error Interface) → Option Interface × List (Except Error Interface)
  | [] => (none, [])
  | Except.ok dev :: rest => (some dev, rest)
  | Except.error _ :: rest => (none, rest)

/-- Consumption of `InterfaceIter` by `Iterator::collect` (as in
`PcapIfT::get_interfaces`, lib.rs lines 389-392): `next` is called
repeatedly and the iteration stops at the first `None`, so a node whose
conversion fails ends the traversal. -/
def InterfaceIter.collect : List (Except Error Interface) → List Interface
  | [] => []
  | Except.ok dev :: rest => dev :: InterfaceIter.collect rest
  | Except.error _ :: _ => []

/-- Sanity: `collect` is exactly the loop of `InterfaceIter.next` that
stops at the first `none`. -/
theorem InterfaceIter.collect_eq_next_loop (nodes : List (Except Error Interface)) :
    InterfaceIter.collect nodes =
      (match InterfaceIter.next nodes with
        | (some dev, rest) => dev :: InterfaceIter.collect rest
        | (none, _) => []) := by
  cases nodes with
  | nil => rfl
  | cons hd tl => cases hd <;> rfl

/-- Embeds `PcapIfT::get_interfaces` (lib.rs lines 389-392): materializes
the interfaces produced by the iterator. The source collects into a
`HashSet`; the embedding keeps the produced interfaces as a list (set
membership and the produced elements are what the claims quantify over). -/
def PcapIfT.get_interfaces (nodes : List (Except Error Interface)) : List Interface :=
  InterfaceIter.collect nodes

/-- Embeds `PcapIfT::find_interface_with_name` (lib.rs lines 394-403):
linear scan over `get_interfaces()` returning the first interface with
the given name. -/
def PcapIfT.find_interface_with_name (nodes : List (Except Error Interface))
    (name : String) : Option Interface :=
  (PcapIfT.get_interfaces nodes).find? (fun i => i.has_name name)

/-- Embeds one step of `AddressIter::next` (lib.rs lines 742-773) over the
remaining chain of native address nodes, each carrying the outcome
`try_address_from` produces for it: advance past the node; yield the
converted address, or on an unrecognized kind recurse to the following
node (`self.next()` in the source). -/
def AddressIter.next : List (Option InterfaceAddress) → Option InterfaceAddress × List (Option InterfaceAddress)
  | [] => (none, [])
  | some a :: rest => (some a, rest)
  | none :: rest => AddressIter.next rest

/-- Consumption of `AddressIter` by `Iterator::collect`: the yielded
addresses of the whole chain, in order. -/
def AddressIter.collect : List (Option InterfaceAddress) → List InterfaceAddress
  | [] => []
  | some a :: rest => a :: AddressIter.collect rest
  | none :: rest => AddressIter.collect rest

/-- C4: the address iterator yields exactly the addresses of recognized
kinds in list order (`filterMap id` over the per-node conversion
outcomes), and a node of unrecognized kind is silently skipped: a step on
it behaves exactly like a step on the remaining chain, and no error value
is ever produced (the item type is the address itself). -/
theorem address_iter_skips_unrecognized (nodes : List (Option InterfaceAddress)) :
    AddressIter.next (none :: nodes) = AddressIter.next nodes ∧
    AddressIter.collect nodes = nodes.filterMap id := by
  refine ⟨rfl, ?_⟩
  induction nodes with
  | nil => rfl
  | cons hd tl ih => cases hd <;> simp [AddressIter.collect, ih]

/-- Interface used in the C3 counterexample: first native node. -/
def eth0 : Interface :=
  { name := "eth0", description := none, addresses := [], flags := [] }

/-- Interface used in the C3 counterexample: third native node, sitting
after the failing node. -/
def wlan0 : Interface :=
  { name := "wlan0", description := none, addresses := [], flags := [] }

/-- Device chain used in the C3 counterexample: a convertible node, then a
node whose conversion fails, then another convertible node. -/
def devNodes : List (Except Error Interface) :=
  [Except.ok eth0,
   Except.error (Error.PcapError "try_interface_from" "unparseable"),
   Except.ok wlan0]

/-- Number of nodes of a device chain whose conversion succeeds (the nodes
"with a parseable name" in the claim's terms). -/
def okCount (nodes : List (Except Error Interface)) : Nat :=
  nodes.countP (fun n => match n with | Except.ok _ => true | Except.error _ => false)

/-- C3 counterexample: on the chain `devNodes` (3 reachable nodes, 1
conversion error) the claim predicts an interface set of size 2 with the
node after the error still yielded; the code stops at the error and
yields only `[eth0]`, of size 1. -/
theorem interface_enum_completeness_cex :
    okCount devNodes = 2 ∧
    PcapIfT.get_interfaces devNodes = [eth0] ∧
    ¬ ((PcapIfT.get_interfaces devNodes).length = okCount devNodes) :=
  ⟨rfl, rfl, by decide⟩

/-- C3 amended: enumeration yields one Interface per convertible node of
the longest error-free prefix of the chain, in order; a node whose
conversion fails terminates the enumeration, dropping that node and every
node after it. -/
theorem interface_enum_completeness_amended :
    (∀ devs : List Interface,
      PcapIfT.get_interfaces (devs.map Except.ok) = devs) ∧
    (∀ (pre : List Interface) (e : Error) (post : List (Except Error Interface)),
      PcapIfT.get_interfaces (pre.map Except.ok ++ Except.error e :: post) = pre) := by
  constructor
  · intro devs
    induction devs with
    | nil => rfl
    | cons hd tl ih =>
      simpa [PcapIfT.get_interfaces, InterfaceIter.collect] using ih
  · intro pre e post
    induction pre with
    | nil => rfl
    | cons hd tl ih =>
      simpa [PcapIfT.get_interfaces, InterfaceIter.collect] using ih

/-- C8: `find_interface_with_name(name)` returns some interface whose name
equals `name` exactly when some interface of the enumerated set has that
name, and returns `none` exactly when no enumerated interface has that
name. -/
theorem find_interface_with_name_spec (nodes : List (Except Error Interface))
    (name : String) :
    ((∃ i, PcapIfT.find_interface_with_name nodes name = some i ∧ i.name = name) ↔
      ∃ i ∈ PcapIfT.get_interfaces nodes, i.name = name) ∧
    ((PcapIfT.find_interface_with_name nodes name = none) ↔
      ∀ i ∈ PcapIfT.get_interfaces nodes, i.name ≠ name) := by
  constructor
  · constructor
    · rintro ⟨i, hfind, hname⟩
      rw [PcapIfT.find_interface_with_name] at hfind
      exact ⟨i, List.mem_of_find?_eq_some hfind, hname⟩
    · rintro ⟨i, hmem, hname⟩
      have hsome : ((PcapIfT.get_interfaces nodes).find? (fun i => i.has_name name)).isSome := by
        rw [List.find?_isSome]
        exact ⟨i, hmem, by simp [Interface.has_name, hname]⟩
      obtain ⟨j, hj⟩ := Option.isSome_iff_exists.mp hsome
      have hjp := List.find?_some hj
      exact ⟨j, hj, by simpa [Interface.has_name] using hjp⟩
  · rw [PcapIfT.find_interface_with_name, List.find?_eq_none]
    simp [Interface.has_name]

/-- Embeds `struct PcapT` (lib.rs lines 51-56): the native capture handle,
tracked here by the one piece of native state the type-state claim is
about — whether the handle has passed activation. -/
structure PcapT where
  activated : Bool
  deriving DecidableEq

/-- Modelled from the spec: `pcap_create` lives in the `functions` module
(`functions.rs`, not available under src/) and wraps the collaborator's
create-handle call (spec section 6), whose result is a handle that has
not yet passed activation (spec section 4.2: options take effect "when the
handle is activated", and activation is a separate later call). The
success case is modelled; the failure case returns an `Error` and
produces no handle. -/
def pcap_create (_source : String) : PcapT :=
  { activated := false }

/-- Modelled from the spec: `pcap_activate` (functions module, not under
src/) wraps the collaborator's `activate(handle)` call (spec section 6),
which transitions the handle into the active state. Success case. -/
def pcap_activate (p : PcapT) : PcapT :=
  { p with activated := true }

/-- Embeds `struct Pcap` (lib.rs lines 88-90): the capture-capable type,
owner of a `PcapT`. -/
structure Pcap where
  pcap_t : PcapT
  deriving DecidableEq

/-- Embeds `struct PcapBuilder` (lib.rs lines 163-166): the
not-yet-activated configuration type. -/
structure PcapBuilder where
  pcap_t : PcapT
  deriving DecidableEq

/-- Embeds `Pcap::new` (lib.rs lines 97-100): wraps the result of
`pcap_create` directly in a `Pcap`, with no activate call. Success case of
the `Result`. -/
def Pcap.new (source : String) : Pcap :=
  { pcap_t := pcap_create source }

/-- Embeds `Pcap::builder` (lib.rs lines 106-109): wraps the result of
`pcap_create` in a `PcapBuilder`. Success case of the `Result`. -/
def Pcap.builder (source : String) : PcapBuilder :=
  { pcap_t := pcap_create source }

/-- Embeds `Pcap::activate` (lib.rs lines 138-140): calls `pcap_activate`
on the handle held by an existing `Pcap` (the source takes `&self` and the
native state changes behind the pointer; the embedding returns the updated
handle). Success case. -/
def Pcap.activate (p : Pcap) : Pcap :=
  { pcap_t := pcap_activate p.pcap_t }

/-- Embeds `PcapBuilder::activate` (lib.rs lines 214-219): consumes the
builder, activates its handle and produces a `Pcap`. Success case of the
`Result`; on failure the builder is consumed and no `Pcap` exists. -/
def PcapBuilder.activate (b : PcapBuilder) : Pcap :=
  { pcap_t := pcap_activate b.pcap_t }

/-- Embeds `Pcap::capture` (lib.rs lines 125-127): available on every
`Pcap` value, it hands out the packet iterator bound to the handle; one
step of that iterator on a poll stream is `PcapIter.next`. -/
def Pcap.capture (_p : Pcap) (polls : List (Except Error Packet)) :
    Option Packet × List (Except Error Packet) :=
  PcapIter.next polls

/-- The `Pcap` values obtainable through the public API surface of
lib.rs: `Pcap::new` returns one directly (line 97), and
`PcapBuilder::activate` produces one from any builder (line 214). These
are the only public constructors of `Pcap`. -/
inductive ObtainablePcap : Pcap → Prop where
  | viaNew (source : String) : ObtainablePcap (Pcap.new source)
  | viaBuilderActivate (b : PcapBuilder) : ObtainablePcap (PcapBuilder.activate b)

/-- C7 counterexample: `Pcap::new "lo"` is obtainable through the public
API, its handle has not passed activation, and yet `capture` is already
issuable on it — refuting the claim that every obtainable value of the
capture-capable type has passed a successful activate call. -/
theorem pcap_typestate_cex :
    ObtainablePcap (Pcap.new "lo") ∧
    (Pcap.new "lo").pcap_t.activated = false ∧
    (Pcap.capture (Pcap.new "lo") [] = (none, [])) ∧
    ¬ (∀ p : Pcap, ObtainablePcap p → p.pcap_t.activated = true) :=
  ⟨ObtainablePcap.viaNew "lo", rfl, rfl,
    fun h => by simpa [Pcap.new, pcap_create] using h (Pcap.new "lo") (ObtainablePcap.viaNew "lo")⟩

/-- C7 amended: the builder path is genuinely type-state — the
not-yet-active configuration (`PcapBuilder`) is a distinct type without
capture/inject, and `PcapBuilder::activate` consumes it and produces an
activated `Pcap` — but `Pcap::new` also returns the capture-capable type
directly with a handle that has not passed activation (a separate
`Pcap::activate` call on the same value is what activates it), so a
not-yet-activated `Pcap` is obtainable and capture/inject calls can be
issued on it. -/
theorem pcap_typestate_amended :
    (∀ b : PcapBuilder, (PcapBuilder.activate b).pcap_t.activated = true) ∧
    (∀ source : String, (Pcap.new source).pcap_t.activated = false) ∧
    (∀ source : String, ((Pcap.new source).activate).pcap_t.activated = true) :=
  ⟨fun _ => rfl, fun _ => rfl, fun _ => rfl⟩

end LuomuLibpcap
